import Mathlib

/-!
Shallow embedding of `src/tauri-app/naeyla-native/src-tauri/src/lib.rs`.

The file contains one framework-invoked command (`greet`), and a `run`
function that configures the framework builder: a setup closure that
registers the global shortcut "CmdOrCtrl+Shift+8", attaches a
visibility-toggle handler to the shortcut "CmdOrCtrl+Shift+N", and an
invoke handler exposing `greet`.  Framework effects (window lookup, the
visibility query, hide/show, shortcut registration) are modelled as an
explicit environment of outcomes; the embedded code is a function of that
environment producing a trace of the calls it performs, the value it
returns, and a transition on an abstract application state.
-/

/-- Substitute the first occurrence of the placeholder `\x7b\x7d` in a
format-string character list by the argument, as the Rust `format!` macro
does for a format string with a single positional placeholder. -/
def substFirstBraces (fmt arg : List Char) : List Char :=
  match fmt with
  | [] => []
  | '\x7b' :: '\x7d' :: rest => arg ++ rest
  | c :: rest => c :: substFirstBraces rest arg

/-- The format string literal of `greet` in the source,
`"Hello, \x7b\x7d! You\x27ve been greeted from Rust!"`. -/
def greetFormatString : String :=
  "Hello, \x7b\x7d! You\x27ve been greeted from Rust!"

/-- Rust `format!` with one placeholder and one string argument. -/
def rustFormat1 (fmt : String) (arg : String) : String :=
  ⟨substFirstBraces fmt.data arg.data⟩

/-- Embedding of `fn greet(name: &str) -> String`:
`format!("Hello, \x7b\x7d! You\x27ve been greeted from Rust!", name)`. -/
def greet (name : String) : String :=
  rustFormat1 greetFormatString name

example : greet "Ada" = "Hello, Ada! You\x27ve been greeted from Rust!" := by
  decide

/-- Result of a command invocation over the framework IPC bridge: a command
either produces a value or fails with a message. -/
inductive InvokeResult where
  | success (value : String)
  | failure (message : String)
  deriving DecidableEq

/-- The commands registered by `tauri::generate_handler![greet]`. -/
def registeredCommands : List String := ["greet"]

/-- Invocation of the `greet` command over the IPC bridge: the Rust function
has return type `String` (not `Result`), so the invocation always succeeds
with the value of `greet`. -/
def invokeGreet (name : String) : InvokeResult :=
  .success (greet name)

/-- Outcome of `window.is_visible()`: `Ok(b)` or `Err(_)`. -/
inductive QueryResult where
  | ok (visible : Bool)
  | err
  deriving DecidableEq

/-- Rust `Result::unwrap_or` on a visibility query result. -/
def QueryResult.unwrap_or : QueryResult → Bool → Bool
  | .ok b, _ => b
  | .err, d => d

/-- Environment of framework outcomes observed during one invocation of the
shortcut handler closure: whether `handle.get_webview_window("main")`
returns `Some`, what `window.is_visible()` returns, and the `Result` values
of `window.hide()` and `window.show()`. -/
structure ShortcutEnv where
  mainWindowFound : Bool
  visibleResult : QueryResult
  hideResult : Except String Unit
  showResult : Except String Unit

/-- Framework calls the handler closure can perform. -/
inductive HandlerCall where
  | isVisibleQuery
  | hideCall
  | showCall
  deriving DecidableEq, BEq

/-- One run of the handler closure: the trace of framework calls it
performed, the `Result` value the `let _ =` binding discarded (if the
closure reached a hide/show call), and the value the closure returned to
the framework. -/
structure HandlerRun where
  trace : List HandlerCall
  discarded : Option (Except String Unit)
  result : Except String Unit

/-- Embedding of the `on_shortcut` closure body:
if `handle.get_webview_window("main")` finds a window, query visibility and
hide when `is_visible().unwrap_or(false)` holds, otherwise show; the
hide/show `Result` is bound to `_` and dropped, and the closure body ends,
so the closure always returns normally. -/
def runOnShortcut (env : ShortcutEnv) : HandlerRun :=
  if env.mainWindowFound then
    if env.visibleResult.unwrap_or false then
      { trace := [.isVisibleQuery, .hideCall]
        discarded := some env.hideResult
        result := .ok () }
    else
      { trace := [.isVisibleQuery, .showCall]
        discarded := some env.showResult
        result := .ok () }
  else
    { trace := [], discarded := none, result := .ok () }

/-- Abstract application state: visibility of the window labelled "main",
the other windows (label and visibility), the registered global shortcuts,
and the registered command handlers. -/
structure AppState where
  mainVisible : Bool
  otherWindows : List (String × Bool)
  shortcuts : List String
  commandHandlers : List String
  deriving DecidableEq

/-- Effect of one framework call of the handler on the application state:
the visibility query changes nothing; `hide`/`show` on the "main" window
set its visibility when the call succeeds and change nothing when it
fails. -/
def applyCall (env : ShortcutEnv) (st : AppState) (a : HandlerCall) : AppState :=
  match a with
  | .isVisibleQuery => st
  | .hideCall =>
    match env.hideResult with
    | .ok _ => { st with mainVisible := false }
    | .error _ => st
  | .showCall =>
    match env.showResult with
    | .ok _ => { st with mainVisible := true }
    | .error _ => st

/-- Application state after one invocation of the handler closure: the
effects of the calls in its trace, applied in order. -/
def runHandlerState (env : ShortcutEnv) (st : AppState) : AppState :=
  (runOnShortcut env).trace.foldl (applyCall env) st

/-- Invocation of the `greet` command against the application state: the
body of `greet` takes only its string argument, mentions no state, and
returns its formatted string, so the state is threaded through unchanged. -/
def greetInvoke (st : AppState) (name : String) : String × AppState :=
  (greet name, st)

/-- Environment of framework outcomes for the setup closure: the `Result`
values of `global_shortcut().register(...)` and
`global_shortcut().on_shortcut(...)`. -/
structure SetupEnv where
  registerResult : Except String Unit
  onShortcutResult : Except String Unit

/-- The fallible calls of the setup closure. -/
inductive SetupStep where
  | registerCall
  | onShortcutCall
  deriving DecidableEq, BEq

/-- Embedding of the setup closure:
`register("CmdOrCtrl+Shift+8")?` then `on_shortcut("CmdOrCtrl+Shift+N", ...)?`
then `Ok(())`; each `?` returns the error immediately, skipping the rest of
the closure.  Produces the closure result and the trace of attempted
steps. -/
def setupRun (env : SetupEnv) : Except String Unit × List SetupStep :=
  match env.registerResult with
  | .error e => (.error e, [.registerCall])
  | .ok _ =>
    match env.onShortcutResult with
    | .error e => (.error e, [.registerCall, .onShortcutCall])
    | .ok _ => (.ok (), [.registerCall, .onShortcutCall])

/-- Outcome of `run()`: the builder either runs the application, or the
final `.expect("error while running tauri application")` aborts with that
fixed message. -/
inductive RunOutcome where
  | running
  | panicked (msg : String)
  deriving DecidableEq

/-- Embedding of the tail of `run()`: a setup error is surfaced by the
framework as a build error, and `.expect(...)` aborts with the fixed
message. -/
def appRun (env : SetupEnv) : RunOutcome :=
  match (setupRun env).1 with
  | .ok _ => .running
  | .error _ => .panicked "error while running tauri application"

/-- The key combination passed to `register`. -/
def registerCombo : String := "CmdOrCtrl+Shift+8"

/-- The key combination passed to `on_shortcut`. -/
def toggleCombo : String := "CmdOrCtrl+Shift+N"

/-- A global-shortcut binding created during setup: its key combination and
whether this code attached a handler closure to it. -/
structure Binding where
  combo : String
  hasHandler : Bool
  deriving DecidableEq

/-- The bindings created by the setup closure: `register("CmdOrCtrl+Shift+8")`
attaches no handler; `on_shortcut("CmdOrCtrl+Shift+N", ...)` attaches the
visibility-toggle closure. -/
def setupBindings : List Binding :=
  [⟨registerCombo, false⟩, ⟨toggleCombo, true⟩]

/-- Framework dispatch of a shortcut firing: for each binding on that key
combination that has the handler attached, the handler closure runs and
its trace of calls is performed. -/
def dispatchShortcut (combo : String) (env : ShortcutEnv) : List HandlerCall :=
  (setupBindings.filter fun b => b.combo == combo && b.hasHandler).foldr
    (fun _ acc => (runOnShortcut env).trace ++ acc) []

/-- The value of `greet` is the plain concatenation of the prefix, the
argument and the suffix of its format string. -/
theorem greet_concat (name : String) :
    greet name = "Hello, " ++ name ++ "! You\x27ve been greeted from Rust!" := by
  obtain ⟨data⟩ := name
  rfl

/-- Claim C1: for every input string S, the greet command returns exactly
the string "Hello, " ++ S ++ "! You\x27ve been greeted from Rust!", the
literal concatenation with no other characters. -/
theorem greet_returns_exact_concatenation (name : String) :
    greet name = "Hello, " ++ name ++ "! You\x27ve been greeted from Rust!" :=
  greet_concat name

/-- Claim C2: when the main-window lookup succeeds, the handler requests
hide if the visibility query returns Ok(true), and requests show if the
query returns Ok(false) or Err. -/
theorem toggle_hide_when_visible_show_otherwise (env : ShortcutEnv)
    (hwin : env.mainWindowFound = true) :
    (env.visibleResult = QueryResult.ok true →
      (runOnShortcut env).trace
        = [HandlerCall.isVisibleQuery, HandlerCall.hideCall]) ∧
    ((env.visibleResult = QueryResult.ok false ∨ env.visibleResult = QueryResult.err) →
      (runOnShortcut env).trace
        = [HandlerCall.isVisibleQuery, HandlerCall.showCall]) := by
  constructor
  · intro hv
    simp [runOnShortcut, hwin, hv, QueryResult.unwrap_or]
  · rintro (hv | hv) <;> simp [runOnShortcut, hwin, hv, QueryResult.unwrap_or]

/-- Witness for C2: in the environment where the main window is found and
reported visible, the handler queries visibility and then hides. -/
theorem toggle_hide_when_visible_show_otherwise_witness :
    (runOnShortcut ⟨true, QueryResult.ok true, Except.ok (), Except.ok ()⟩).trace
      = [HandlerCall.isVisibleQuery, HandlerCall.hideCall] :=
  (toggle_hide_when_visible_show_otherwise
    ⟨true, QueryResult.ok true, Except.ok (), Except.ok ()⟩ rfl).1 rfl

/-- Claim C3: the handler never propagates an error: for every outcome of
the lookup, the query and the hide/show call it returns normally, performs
no call twice (no retry), and its control flow does not depend on the
hide/show results (no recovery). -/
theorem toggle_never_propagates_error (env : ShortcutEnv) :
    (runOnShortcut env).result = Except.ok () ∧
    (∀ a : HandlerCall, (runOnShortcut env).trace.count a ≤ 1) ∧
    (∀ hr sr : Except String Unit,
      (runOnShortcut (ShortcutEnv.mk env.mainWindowFound env.visibleResult hr sr)).trace
        = (runOnShortcut env).trace) := by
  obtain ⟨w, v, h, s⟩ := env
  refine ⟨?_, ?_, ?_⟩
  · cases w
    · rfl
    · rcases v with b | _
      · cases b <;> rfl
      · rfl
  · intro a
    have htr : (runOnShortcut ⟨w, v, h, s⟩).trace = [] ∨
        (runOnShortcut ⟨w, v, h, s⟩).trace
          = [HandlerCall.isVisibleQuery, HandlerCall.hideCall] ∨
        (runOnShortcut ⟨w, v, h, s⟩).trace
          = [HandlerCall.isVisibleQuery, HandlerCall.showCall] := by
      cases w
      · exact Or.inl rfl
      · rcases v with b | _
        · cases b
          · exact Or.inr (Or.inr rfl)
          · exact Or.inr (Or.inl rfl)
        · exact Or.inr (Or.inr rfl)
    rcases htr with ht | ht | ht <;> rw [ht] <;> cases a <;> decide
  · intro hr sr
    cases w
    · rfl
    · rcases v with b | _
      · cases b <;> rfl
      · rfl

/-- Claim C4: if either fallible setup call fails, its error is returned
from the setup closure, the application aborts with the fixed message, and
when the register call fails the listener call is never attempted. -/
theorem setup_failure_aborts (env : SetupEnv) (e : String)
    (h : env.registerResult = Except.error e ∨
      (env.registerResult = Except.ok () ∧ env.onShortcutResult = Except.error e)) :
    (setupRun env).1 = Except.error e ∧
    appRun env = RunOutcome.panicked "error while running tauri application" ∧
    (env.registerResult = Except.error e →
      SetupStep.onShortcutCall ∉ (setupRun env).2) := by
  obtain ⟨r, o⟩ := env
  rcases h with h | ⟨h1, h2⟩
  · cases h
    exact ⟨rfl, rfl, fun _ => by simp [setupRun]⟩
  · cases h1
    cases h2
    exact ⟨rfl, rfl, fun hcontra => absurd hcontra (by simp)⟩

/-- Witness for C4: a failing register call aborts startup with the fixed
message and skips the listener call. -/
theorem setup_failure_aborts_witness :
    (setupRun ⟨Except.error "denied", Except.ok ()⟩).1 = Except.error "denied" ∧
    appRun ⟨Except.error "denied", Except.ok ()⟩
      = RunOutcome.panicked "error while running tauri application" ∧
    ((SetupEnv.mk (Except.error "denied") (Except.ok ())).registerResult
        = Except.error "denied" →
      SetupStep.onShortcutCall ∉ (setupRun ⟨Except.error "denied", Except.ok ()⟩).2) :=
  setup_failure_aborts ⟨Except.error "denied", Except.ok ()⟩ "denied" (Or.inl rfl)

/-- Claim C5: the greet command is total with no error path: for every
input string its invocation succeeds with the formatted greeting. -/
theorem greet_command_total_no_error (name : String) :
    ∃ s : String, invokeGreet name = InvokeResult.success s ∧
      s = "Hello, " ++ name ++ "! You\x27ve been greeted from Rust!" :=
  ⟨greet name, rfl, greet_concat name⟩

/-- Claim C6: the greet command is pure and deterministic: two invocations
with equal inputs return equal outputs whatever the application state, and
each invocation leaves the application state unchanged. -/
theorem greet_pure_deterministic (st₁ st₂ : AppState) (n₁ n₂ : String)
    (h : n₁ = n₂) :
    (greetInvoke st₁ n₁).1 = (greetInvoke st₂ n₂).1 ∧
    (greetInvoke st₁ n₁).2 = st₁ ∧ (greetInvoke st₂ n₂).2 = st₂ := by
  cases h
  exact ⟨rfl, rfl, rfl⟩

/-- Witness for C6 at two concrete states and the input "Ada". -/
theorem greet_pure_deterministic_witness :
    (greetInvoke ⟨true, [], [], []⟩ "Ada").1
      = (greetInvoke ⟨false, [("aux", true)], ["CmdOrCtrl+Shift+8"], ["greet"]⟩ "Ada").1 ∧
    (greetInvoke ⟨true, [], [], []⟩ "Ada").2 = ⟨true, [], [], []⟩ ∧
    (greetInvoke ⟨false, [("aux", true)], ["CmdOrCtrl+Shift+8"], ["greet"]⟩ "Ada").2
      = ⟨false, [("aux", true)], ["CmdOrCtrl+Shift+8"], ["greet"]⟩ :=
  greet_pure_deterministic ⟨true, [], [], []⟩
    ⟨false, [("aux", true)], ["CmdOrCtrl+Shift+8"], ["greet"]⟩ "Ada" "Ada" rfl

/-- Claim C7 counterexample: it is not the case that every invocation
performs exactly one visibility query and exactly one show/hide call: when
the main-window lookup fails, the handler performs no call at all. -/
theorem toggle_exactly_one_call_counterexample :
    ¬ ∀ env : ShortcutEnv,
        (runOnShortcut env).trace.count HandlerCall.isVisibleQuery = 1 ∧
        (runOnShortcut env).trace.count HandlerCall.hideCall
          + (runOnShortcut env).trace.count HandlerCall.showCall = 1 := by
  intro hall
  have h := (hall ⟨false, QueryResult.ok true, Except.ok (), Except.ok ()⟩).1
  exact absurd h (by decide)

/-- Claim C7 (amended): on every invocation where the main-window lookup
succeeds, the handler performs exactly one visibility query and exactly one
show/hide call, then returns. -/
theorem toggle_exactly_one_call_when_window_found (env : ShortcutEnv)
    (hwin : env.mainWindowFound = true) :
    (runOnShortcut env).trace.count HandlerCall.isVisibleQuery = 1 ∧
    (runOnShortcut env).trace.count HandlerCall.hideCall
      + (runOnShortcut env).trace.count HandlerCall.showCall = 1 := by
  have htr : (runOnShortcut env).trace
        = [HandlerCall.isVisibleQuery, HandlerCall.hideCall]
      ∨ (runOnShortcut env).trace
        = [HandlerCall.isVisibleQuery, HandlerCall.showCall] := by
    cases hb : env.visibleResult.unwrap_or false
    · right
      simp [runOnShortcut, hwin, hb]
    · left
      simp [runOnShortcut, hwin, hb]
  rcases htr with h | h <;> rw [h] <;> exact ⟨by decide, by decide⟩

/-- Witness for the amended C7: main window found, visibility query fails,
so the handler queries once and shows once. -/
theorem toggle_exactly_one_call_when_window_found_witness :
    (runOnShortcut ⟨true, QueryResult.err, Except.ok (), Except.ok ()⟩).trace.count
        HandlerCall.isVisibleQuery = 1 ∧
    (runOnShortcut ⟨true, QueryResult.err, Except.ok (), Except.ok ()⟩).trace.count
        HandlerCall.hideCall
      + (runOnShortcut ⟨true, QueryResult.err, Except.ok (), Except.ok ()⟩).trace.count
        HandlerCall.showCall = 1 :=
  toggle_exactly_one_call_when_window_found
    ⟨true, QueryResult.err, Except.ok (), Except.ok ()⟩ rfl

/-- Claim C8: when the main-window lookup returns no window, the handler
performs no visibility query and no show/hide call, changes no state, and
returns normally. -/
theorem toggle_no_window_noop (env : ShortcutEnv) (st : AppState)
    (hwin : env.mainWindowFound = false) :
    (runOnShortcut env).trace = [] ∧
    runHandlerState env st = st ∧
    (runOnShortcut env).result = Except.ok () := by
  refine ⟨?_, ?_, ?_⟩
  · simp [runOnShortcut, hwin]
  · simp [runHandlerState, runOnShortcut, hwin]
  · simp [runOnShortcut, hwin]

/-- Witness for C8 at a concrete environment and state. -/
theorem toggle_no_window_noop_witness :
    (runOnShortcut ⟨false, QueryResult.ok true, Except.ok (), Except.ok ()⟩).trace = [] ∧
    runHandlerState ⟨false, QueryResult.ok true, Except.ok (), Except.ok ()⟩
        ⟨true, [], [], []⟩ = ⟨true, [], [], []⟩ ∧
    (runOnShortcut ⟨false, QueryResult.ok true, Except.ok (), Except.ok ()⟩).result
      = Except.ok () :=
  toggle_no_window_noop ⟨false, QueryResult.ok true, Except.ok (), Except.ok ()⟩
    ⟨true, [], [], []⟩ rfl

/-- Claim C9: the two shortcut bindings use distinct key combinations, only
the "CmdOrCtrl+Shift+N" binding has the handler attached, the
"CmdOrCtrl+Shift+8" binding has none, and firing "CmdOrCtrl+Shift+8"
triggers no call by this code. -/
theorem shortcut_bindings_distinct_and_inert :
    registerCombo ≠ toggleCombo ∧
    (setupBindings.filter fun b => b.hasHandler).map Binding.combo = [toggleCombo] ∧
    (setupBindings.filter fun b => b.combo == registerCombo).map Binding.hasHandler
      = [false] ∧
    ∀ env : ShortcutEnv, dispatchShortcut registerCombo env = [] :=
  ⟨by decide, by decide, by decide, fun env => rfl⟩

/-- Claim C10: an invocation of the handler modifies at most the visibility
of the main window: the other windows, the registered shortcuts and the
registered command handlers are unchanged. -/
theorem toggle_frame_effect_main_visibility_only (env : ShortcutEnv) (st : AppState) :
    (runHandlerState env st).otherWindows = st.otherWindows ∧
    (runHandlerState env st).shortcuts = st.shortcuts ∧
    (runHandlerState env st).commandHandlers = st.commandHandlers := by
  obtain ⟨w, v, h, s⟩ := env
  cases w
  · exact ⟨rfl, rfl, rfl⟩
  · rcases v with b | _
    · cases b
      · cases s <;> exact ⟨rfl, rfl, rfl⟩
      · cases h <;> exact ⟨rfl, rfl, rfl⟩
    · cases s <;> exact ⟨rfl, rfl, rfl⟩
